import Mathlib

/-!
# POP LOD demo (`src/main.cpp`): streaming configuration, range policy and camera glue

A shallow embedding of `main.cpp`:

* the range-fetching policy lambda handed to
  `popGeometryLodRangeFetchingBoundFunction` (lines 36-46);
* the fluent configuration chain handed to `StreamingExtension::initialize`
  (lines 29-48);
* the callbacks connected to the loaders, the canvas and the mouse
  (lines 50-213), as transitions on an explicit program state.

C++ `int` values are embedded as `Int`; the policy performs no arithmetic on
them.  C++ `float` values are embedded in a linear ordered field `K`
(`ℚ` for evaluation, `ℝ` where `sin` and `cos` are needed).
-/

namespace PopLod

/-! ## The range policy (main.cpp, lines 36-46) -/

/-- The four by-reference `int&` parameters of the range policy. Passing a
reference is embedded as state passing: the values on entry are an argument
and the values on return are part of the result. -/
structure RangeSizes where
  lodRangeMinSize : Int
  lodRangeMaxSize : Int
  lodRangeRequestMinSize : Int
  lodRangeRequestMaxSize : Int
  deriving DecidableEq, Repr

/-- What an invocation of the policy leaves behind: the returned `int` and
the values held by the four references on return. -/
structure PolicyResult where
  ret : Int
  sizes : RangeSizes
  deriving DecidableEq, Repr

/-- The type `int(int, int, int&, int&, int&, int&)` of a range policy. -/
abbrev RangePolicy := Int → Int → RangeSizes → PolicyResult

/-- The lambda of main.cpp lines 36-46:
`[](int currentLod, int requiredLod, int& lodRangeMinSize, int& lodRangeMaxSize,`
`int& lodRangeRequestMinSize, int& lodRangeRequestMaxSize) { return 1; }`.
The body is the single statement `return 1;`: no reference is assigned. -/
def lodRangeFetchingBound : RangePolicy :=
  fun _currentLod _requiredLod sizes =>
    { ret := 1, sizes := sizes }

/-- The capture list of the lambda is `[]`: its closure object has no member. -/
abbrev Captures := Unit

/-- One argument tuple of an invocation of the policy. -/
structure PolicyCall where
  currentLod : Int
  requiredLod : Int
  sizes : RangeSizes
  deriving DecidableEq, Repr

/-- Invocation of the closure object: `operator()` receives the closure
(its captures) and the arguments, and leaves the closure and the result. -/
def invokePolicy (env : Captures) (call : PolicyCall) : Captures × PolicyResult :=
  (env, lodRangeFetchingBound call.currentLod call.requiredLod call.sizes)

/-- The closure after a sequence of earlier invocations. -/
def closureAfter (history : List PolicyCall) : Captures :=
  history.foldl (fun env call => (invokePolicy env call).1) ()

/-- The result of an invocation made after a given history of invocations. -/
def invokeAfter (history : List PolicyCall) (call : PolicyCall) : PolicyResult :=
  (invokePolicy (closureAfter history) call).2

/-- Modelled from the spec: one round of the loop of the testable property of
section 8 ("requiredLod advances by 1 per call, verified by repeated
invocation until `currentLod == 3`"); the caller of the policy is code of the
streaming library, absent from src/. The policy is invoked at
`(currentLod, requiredLod)` and `currentLod` advances by the returned value.
The state is the current LOD together with the four size variables. -/
def advanceLod (policy : RangePolicy) (requiredLod : Int)
    (st : Int × RangeSizes) : Int × RangeSizes :=
  let out := policy st.1 requiredLod st.2
  (st.1 + out.ret, out.sizes)

/-- Modelled from the spec: the state after `n` rounds of `advanceLod`. -/
def advanceLodTimes (policy : RangePolicy) (requiredLod : Int) :
    Nat → Int × RangeSizes → Int × RangeSizes
  | 0, st => st
  | n + 1, st => advanceLodTimes policy requiredLod n (advanceLod policy requiredLod st)

/-- Modelled from the spec: the loop itself, "repeated invocation until"
`currentLod == requiredLod`, counting the invocations; the result is the
number of invocations and the LOD reached, `none` when the fuel runs out
first. -/
def fetchUntilRequired (policy : RangePolicy) (requiredLod : Int) :
    Nat → Int × RangeSizes → Option (Nat × Int)
  | 0, st => if st.1 = requiredLod then some (0, st.1) else none
  | fuel + 1, st =>
    if st.1 = requiredLod then some (0, st.1)
    else
      match fetchUntilRequired policy requiredLod fuel (advanceLod policy requiredLod st) with
      | some (n, lod) => some (n + 1, lod)
      | none => none

/-! ## The streaming configuration (main.cpp, lines 15-18 and 29-48) -/

/-- The constant `MODEL_FILENAME` (line 16). -/
def MODEL_FILENAME : String := "xyzrgb_dragon.ply.withcracks.scene"

/-- The constant `LOD_BLENDING_PERIOD = 1500.0f` (line 18). -/
def LOD_BLENDING_PERIOD {K : Type} [LinearOrderedField K] : K := 1500

/-- Modelled from the spec: the configuration bundle of the streaming
extension (class `StreamingOptions` of the streaming library, absent from
src/). Its fields are the five options of the spec's configuration surface
(section 6) and of section 4.4: error tolerance threshold, blending enabled,
blending period, range fetching bound function, max active parsers. -/
structure StreamingOptions (K : Type) where
  errorToleranceThreshold : K
  lodBlendingEnabled : Bool
  lodBlendingPeriod : K
  rangeFetchingBoundFunction : RangePolicy
  maxActiveParsers : Int

namespace StreamingOptions

variable {K : Type}

/-- Modelled from the spec: the fluent setter of the error tolerance
threshold (absent from src/); it stores its argument in its option and
returns the bundle for chaining. -/
def popGeometryErrorToleranceThreshold (o : StreamingOptions K) (value : K) :
    StreamingOptions K :=
  { o with errorToleranceThreshold := value }

/-- Modelled from the spec: the fluent setter of the blending flag (absent
from src/). -/
def popGeometryLodBlendingEnabled (o : StreamingOptions K) (value : Bool) :
    StreamingOptions K :=
  { o with lodBlendingEnabled := value }

/-- Modelled from the spec: the fluent setter of the blending period (absent
from src/). -/
def popGeometryLodBlendingPeriod (o : StreamingOptions K) (value : K) :
    StreamingOptions K :=
  { o with lodBlendingPeriod := value }

/-- Modelled from the spec: the fluent setter of the range policy (absent
from src/). -/
def popGeometryLodRangeFetchingBoundFunction (o : StreamingOptions K)
    (value : RangePolicy) : StreamingOptions K :=
  { o with rangeFetchingBoundFunction := value }

/-- Modelled from the spec: the fluent setter of the decode concurrency cap
(absent from src/). -/
def maxNumActiveParsers (o : StreamingOptions K) (value : Int) :
    StreamingOptions K :=
  { o with maxActiveParsers := value }

end StreamingOptions

/-- The argument of `StreamingExtension::initialize` in main.cpp lines 32-47:
the chain of five setter calls applied to `lodScheduler->streamingOptions()`,
in the order of the source. -/
def configureStreaming {K : Type} [LinearOrderedField K]
    (streamingOptions : StreamingOptions K) : StreamingOptions K :=
  ((((streamingOptions.popGeometryErrorToleranceThreshold 0
    ).popGeometryLodBlendingEnabled true
    ).popGeometryLodBlendingPeriod LOD_BLENDING_PERIOD
    ).popGeometryLodRangeFetchingBoundFunction lodRangeFetchingBound
    ).maxNumActiveParsers 8

/-! ## The program state and the callbacks (main.cpp, lines 50-218) -/

/-- The constants and functions of the math and scene libraries that
main.cpp uses and src/ does not contain, taken as parameters:
`math::pi<float>()`, `math::half_pi<float>()`, `math::epsilon<float>()`,
`std::sin`, `std::cos`, the macro `MINKO_SCENE_HEADER_SIZE` and the value of
`canvas->aspectRatio()` at start-up. -/
structure Externals (K : Type) where
  pi : K
  halfPi : K
  epsilon : K
  sin : K → K
  cos : K → K
  sceneHeaderSize : Nat
  canvasAspectRatio : K

/-- A `math::vec3`. -/
structure Vec3 (K : Type) where
  x : K
  y : K
  z : K
  deriving DecidableEq, Repr

/-- An entry of a loader queue: the file name and, when the options carry
one, the `seekedLength`. -/
structure QueuedFile where
  filename : String
  seekedLength : Option Nat
  deriving DecidableEq, Repr

/-- One call of `sceneManager->nextFrame(time, deltaTime, shouldRender)`. -/
structure FrameTick (K : Type) where
  time : K
  deltaTime : K
  shouldRender : Bool
  deriving DecidableEq, Repr

/-- The state `main` and its callbacks act on. The local variables of `main`
captured by the callbacks (`yaw`, `pitch`, `roll`, `distance`, the two rotation
speeds) are fields under their own names. Objects of the libraries are
recorded through the calls the program makes on them: the options of
`defaultLoader`, the two loader queues and their `load()` calls, the names of
the children added to `root`, the aspect ratio given to `math::perspective` for the camera
projection, the eye position given to `math::lookAt` for the camera transform,
and the `nextFrame` calls. `streamingOptions` is the bundle held by
`lodScheduler->streamingOptions()`. -/
structure Program (K : Type) where
  streamingOptions : StreamingOptions K
  registeredParsers : List String
  loaderEffect : Option String
  nodeFunctionInstalled : Bool
  fxQueue : List QueuedFile
  fxLoadCalls : Nat
  defaultQueue : List QueuedFile
  defaultLoadCalls : Nat
  rootChildren : List (Option String)
  projectionAspectRatio : K
  cameraEye : Option (Vec3 K)
  yaw : K
  pitch : K
  roll : K
  distance : K
  cameraRotationXSpeed : K
  cameraRotationYSpeed : K
  frames : List (FrameTick K)

section Callbacks

variable {K : Type} [LinearOrderedField K]

/-- The constant `minPitch = math::epsilon<float>()` (line 164). -/
def minPitch (ext : Externals K) : K := ext.epsilon

/-- The constant `maxPitch = math::half_pi<float>() - math::epsilon<float>()`
(line 165). -/
def maxPitch (ext : Externals K) : K := ext.halfPi - ext.epsilon

/-- The constant `lookAtTarget = math::vec3(0, 0, 0)` (line 166). -/
def lookAtTarget : Vec3 K := { x := 0, y := 0, z := 0 }

/-- Lines 196-199: `if (pitch > maxPitch) pitch = maxPitch;`
`else if (pitch < minPitch) pitch = minPitch;`. -/
def clampPitch (ext : Externals K) (pitch : K) : K :=
  if pitch > maxPitch ext then maxPitch ext
  else if pitch < minPitch ext then minPitch ext
  else pitch

/-- Lines 202-206: the eye position handed to `math::lookAt`. -/
def cameraPosition (ext : Externals K) (yaw pitch distance : K) : Vec3 K :=
  { x := lookAtTarget.x + distance * ext.cos yaw * ext.sin pitch,
    y := lookAtTarget.y + distance * ext.cos pitch,
    z := lookAtTarget.z + distance * ext.sin yaw * ext.sin pitch }

/-- The state reached by `main` before `canvas->run()` (lines 24-218), from
the options `lodScheduler->streamingOptions()` starts with: the streaming
set-up (lines 30-48), the root and camera nodes (lines 81-108), the camera
control variables (lines 164-172) and `fxLoader->queue(...)->load()`
(lines 216-218). Connecting a callback changes none of these fields. -/
def mainSetup (ext : Externals K) (schedulerOptions : StreamingOptions K) : Program K :=
  { streamingOptions := configureStreaming schedulerOptions,
    registeredParsers := [],
    loaderEffect := none,
    nodeFunctionInstalled := false,
    fxQueue := [{ filename := "effect/PopLod.effect", seekedLength := none }],
    fxLoadCalls := 1,
    defaultQueue := [],
    defaultLoadCalls := 0,
    rootChildren := [some "camera"],
    projectionAspectRatio := ext.canvasAspectRatio,
    cameraEye := none,
    yaw := -ext.halfPi + 25 / 100,
    pitch := ext.pi * (36 / 100),
    roll := 0,
    distance := 250,
    cameraRotationXSpeed := 0,
    cameraRotationYSpeed := 0,
    frames := [] }

/-- The callback `fxLoaderComplete` (lines 52-78): the options of
`defaultLoader` get the parser for "scene", the effect and the node function;
the model file is queued with `seekedLength(MINKO_SCENE_HEADER_SIZE)` on a
clone of the options and `load()` is called. -/
def fxLoaderComplete (ext : Externals K) (s : Program K) : Program K :=
  { s with
    registeredParsers := s.registeredParsers ++ ["scene"],
    loaderEffect := some "effect/PopLod.effect",
    nodeFunctionInstalled := true,
    defaultQueue := s.defaultQueue ++
      [{ seekedLength := some ext.sceneHeaderSize, filename := MODEL_FILENAME }],
    defaultLoadCalls := s.defaultLoadCalls + 1 }

/-- The callback `defaultLoaderComplete` (lines 110-156): the scene node, the
six lights and the ground mesh (a node created without a name, `none`)
become children of `root`, in this order.
Whether the scene node already has a `Transform` only decides a component of
that node (lines 116-117), which the state does not record. -/
def defaultLoaderComplete (s : Program K) (_sceneNodeHasTransform : Bool) : Program K :=
  { s with
    rootChildren := s.rootChildren ++
      [some MODEL_FILENAME, some "dirLight", some "headSpot", some "headPoint",
        some "tailPoint", some "midPoint", some "ambientLight", none] }

/-- The callback `canvasResized` (lines 158-161): the projection becomes
`math::perspective(FOV, float(w) / float(h), Z_NEAR, Z_FAR)`. -/
def canvasResized (s : Program K) (w h : Nat) : Program K :=
  { s with projectionAspectRatio := (w : K) / (h : K) }

/-- The callback `mouseWheel` (lines 174-177): `distance += float(v) * 10`. -/
def mouseWheel (s : Program K) (_h v : Int) : Program K :=
  { s with distance := s.distance + (v : K) * 10 }

/-- The callback `mouseMove` (lines 179-186). -/
def mouseMove (s : Program K) (leftButtonIsDown : Bool) (dx dy : Int) : Program K :=
  if leftButtonIsDown then
    { s with
      cameraRotationYSpeed := (dx : K) * (1 / 100),
      cameraRotationXSpeed := (dy : K) * (-(1 / 100)) }
  else s

/-- The callback `canvasEnterFrame` (lines 188-213): the camera update, then
`sceneManager->nextFrame(time, deltaTime, shouldRender)`. -/
def canvasEnterFrame (ext : Externals K) (s : Program K)
    (time deltaTime : K) (shouldRender : Bool) : Program K :=
  let yaw := s.yaw + s.cameraRotationYSpeed
  let cameraRotationYSpeed := s.cameraRotationYSpeed * (9 / 10)
  let pitch := s.pitch + s.cameraRotationXSpeed
  let cameraRotationXSpeed := s.cameraRotationXSpeed * (9 / 10)
  let pitch := clampPitch ext pitch
  { s with
    yaw := yaw,
    cameraRotationYSpeed := cameraRotationYSpeed,
    pitch := pitch,
    cameraRotationXSpeed := cameraRotationXSpeed,
    cameraEye := some (cameraPosition ext yaw pitch s.distance),
    frames := s.frames ++
      [{ time := time, deltaTime := deltaTime, shouldRender := shouldRender }] }

/-- The signals `canvas->run()` dispatches to the callbacks `main` connected. -/
inductive Event (K : Type) where
  | fxLoaderComplete
  | defaultLoaderComplete (sceneNodeHasTransform : Bool)
  | canvasResized (w h : Nat)
  | mouseWheel (h v : Int)
  | mouseMove (leftButtonIsDown : Bool) (dx dy : Int)
  | enterFrame (time deltaTime : K) (shouldRender : Bool)

/-- Dispatch of one signal to its callback. -/
def step (ext : Externals K) (s : Program K) : Event K → Program K
  | .fxLoaderComplete => fxLoaderComplete ext s
  | .defaultLoaderComplete t => defaultLoaderComplete s t
  | .canvasResized w h => canvasResized s w h
  | .mouseWheel h v => mouseWheel s h v
  | .mouseMove b dx dy => mouseMove s b dx dy
  | .enterFrame time deltaTime shouldRender => canvasEnterFrame ext s time deltaTime shouldRender

/-- The main loop `canvas->run()` on a finite sequence of signals. -/
def run (ext : Externals K) (s : Program K) (events : List (Event K)) : Program K :=
  events.foldl (step ext) s

end Callbacks

/-! ## The parser pool and the blend state (streaming library, specified only) -/

/-- Modelled from the spec: the Parser Pool of section 4.3 (code of the
streaming library, absent from src/). "Bounded-concurrency worker pool: jobs
beyond capacity queue (FIFO) rather than being rejected"; the capacity counter
"must be updated atomically/serially with respect to job start/finish"
(section 5), so job starts and finishes are serial steps. A decode job is
named by a number. -/
structure ParserPool where
  capacity : Int
  inFlight : List Nat
  queue : List Nat
  deriving DecidableEq, Repr

namespace ParserPool

/-- Modelled from the spec: the pool the streaming extension creates from its
configuration bundle, whose "max active parsers" option is the "decode
concurrency cap" (section 6); no job in flight, nothing queued. -/
def create {K : Type} (options : StreamingOptions K) : ParserPool :=
  { capacity := options.maxActiveParsers, inFlight := [], queue := [] }

/-- Modelled from the spec: `submit` of section 4.3. The job starts when a
slot is free; "jobs beyond capacity queue (FIFO) rather than being rejected". -/
def submit (p : ParserPool) (job : Nat) : ParserPool :=
  if (p.inFlight.length : Int) < p.capacity then
    { p with inFlight := p.inFlight ++ [job] }
  else
    { p with queue := p.queue ++ [job] }

/-- Modelled from the spec: the end of a decode job of section 4.3, by success
or by a decode error ("without affecting other streams"): its slot is freed
and the job at the head of the FIFO queue, if any, starts in it. A job that
is not in flight has no slot to free. -/
def finish (p : ParserPool) (job : Nat) : ParserPool :=
  if job ∈ p.inFlight then
    match p.queue with
    | [] => { p with inFlight := p.inFlight.erase job }
    | next :: rest => { p with inFlight := p.inFlight.erase job ++ [next], queue := rest }
  else p

end ParserPool

/-- The steps of a parser pool. -/
inductive PoolEvent where
  | submit (job : Nat)
  | finish (job : Nat)
  deriving DecidableEq, Repr

/-- One step of a parser pool. -/
def ParserPool.step (p : ParserPool) : PoolEvent → ParserPool
  | .submit job => p.submit job
  | .finish job => p.finish job

/-- A parser pool after a sequence of steps. -/
def ParserPool.run (p : ParserPool) (events : List PoolEvent) : ParserPool :=
  events.foldl ParserPool.step p

/-- Modelled from the spec: the Blend State of section 3 (code of the
streaming library, absent from src/): "{ fromLOD, toLOD, startTime, duration
configured (blending period), progress in [0,1] }". -/
structure BlendState (K : Type) where
  fromLod : Int
  toLod : Int
  startTime : K
  duration : K
  progress : K
  deriving DecidableEq, Repr

namespace BlendState

variable {K : Type} [LinearOrderedField K]

/-- Modelled from the spec: step 4 of section 4.1, "begin a blend transition
from the previous displayed LOD to the newly available LOD over the configured
blending period; if blending is disabled, the transition completes
instantly". -/
def start (options : StreamingOptions K) (fromLod toLod : Int) (time : K) : BlendState K :=
  { fromLod := fromLod, toLod := toLod, startTime := time,
    duration := options.lodBlendingPeriod,
    progress := if options.lodBlendingEnabled then 0 else 1 }

/-- Modelled from the spec: step 5 of section 4.1, "advance all active Blend
States by `deltaTime / blendingPeriod`; clamp progress to 1.0". -/
def advance (b : BlendState K) (deltaTime : K) : BlendState K :=
  { b with progress := min (b.progress + deltaTime / b.duration) 1 }

/-- The blend state of one transition after the ticks with the given delta
times, in order. -/
def advanceAll (b : BlendState K) (deltaTimes : List K) : BlendState K :=
  deltaTimes.foldl advance b

end BlendState

/-! ## Theorems: the range policy -/

/-- C1: for every `currentLod`, every `requiredLod` (also `requiredLod <=
currentLod`, also gaps larger than 1) and every initial value of the four size
parameters, the configured range policy returns exactly 1. -/
theorem lodRangeFetchingBound_returns_one (currentLod requiredLod : Int)
    (sizes : RangeSizes) :
    (lodRangeFetchingBound currentLod requiredLod sizes).ret = 1 :=
  rfl

/-- The current LOD after `k` rounds under the configured policy is `k` levels
above the starting one, and the size variables are as at the start. -/
theorem advanceLodTimes_lodRangeFetchingBound (r : Int) (k : Nat) (c : Int)
    (sizes : RangeSizes) :
    advanceLodTimes lodRangeFetchingBound r k (c, sizes) = (c + k, sizes) := by
  induction k generalizing c with
  | zero => simp [advanceLodTimes]
  | succ n ih =>
    simp only [advanceLodTimes, advanceLod, lodRangeFetchingBound]
    rw [ih]
    simp only [Nat.cast_succ]
    congr 1
    ring

/-- The loop under the configured policy, started `n` levels below the
required LOD with at least `n` units of fuel, stops at the required LOD after
exactly `n` invocations. -/
theorem fetchUntilRequired_lodRangeFetchingBound (r : Int) (sizes : RangeSizes)
    (n : Nat) : ∀ (fuel : Nat) (c : Int), n ≤ fuel → c + n = r →
      fetchUntilRequired lodRangeFetchingBound r fuel (c, sizes) = some (n, r) := by
  induction n with
  | zero =>
    intro fuel c _ hc
    have hcr : c = r := by simpa using hc
    cases fuel <;> simp [fetchUntilRequired, hcr]
  | succ m ih =>
    intro fuel c hfuel hc
    have hne : c ≠ r := by
      intro h
      rw [h] at hc
      have : ((m + 1 : Nat) : Int) = 0 := by linarith
      exact absurd this (by exact_mod_cast Nat.succ_ne_zero m)
    cases fuel with
    | zero => omega
    | succ f =>
      have hstep : advanceLod lodRangeFetchingBound r (c, sizes) = (c + 1, sizes) := rfl
      have hrec := ih f (c + 1) (by omega) (by push_cast at hc; linarith)
      simp [fetchUntilRequired, hne, hstep, hrec]

/-- C2: from `currentLod = 0` with `requiredLod = 3`, invoking the configured
policy and advancing `currentLod` by the returned value passes through 1 and 2
and reaches 3 after exactly 3 invocations; for all integers `0 <= c <= r`,
every invocation advances the LOD by exactly 1, the LOD after `k <= r - c`
invocations is `c + k` (below `r` while `k < r - c`, never above `r`), and the
loop stops at `r` after exactly `r - c` invocations. -/
theorem advanceLod_reaches_required (c r : Int) (sizes : RangeSizes)
    (hc : 0 ≤ c) (hcr : c ≤ r) :
    (∀ (lod : Int) (s : RangeSizes),
        (advanceLod lodRangeFetchingBound r (lod, s)).1 = lod + 1) ∧
    (∀ k : Nat, (k : Int) ≤ r - c →
        (advanceLodTimes lodRangeFetchingBound r k (c, sizes)).1 = c + k ∧
        (advanceLodTimes lodRangeFetchingBound r k (c, sizes)).1 ≤ r) ∧
    (∀ k : Nat, (k : Int) < r - c →
        (advanceLodTimes lodRangeFetchingBound r k (c, sizes)).1 < r) ∧
    (advanceLodTimes lodRangeFetchingBound r (r - c).toNat (c, sizes)).1 = r ∧
    (∀ fuel : Nat, (r - c).toNat ≤ fuel →
        fetchUntilRequired lodRangeFetchingBound r fuel (c, sizes)
          = some ((r - c).toNat, r)) ∧
    (advanceLodTimes lodRangeFetchingBound 3 1 (0, sizes)).1 = 1 ∧
    (advanceLodTimes lodRangeFetchingBound 3 2 (0, sizes)).1 = 2 ∧
    (advanceLodTimes lodRangeFetchingBound 3 3 (0, sizes)).1 = 3 ∧
    fetchUntilRequired lodRangeFetchingBound 3 3 (0, sizes) = some (3, 3) := by
  have _ := hc
  have hnat : (((r - c).toNat : Nat) : Int) = r - c := Int.toNat_of_nonneg (by linarith)
  refine ⟨fun _ _ => rfl, ?_, ?_, ?_, ?_, ?_, ?_, ?_, ?_⟩
  · intro k hk
    rw [advanceLodTimes_lodRangeFetchingBound]
    exact ⟨rfl, by simp only; linarith⟩
  · intro k hk
    rw [advanceLodTimes_lodRangeFetchingBound]
    simp only
    linarith
  · rw [advanceLodTimes_lodRangeFetchingBound]
    simp only
    rw [hnat]
    ring
  · intro fuel hfuel
    exact fetchUntilRequired_lodRangeFetchingBound r sizes _ fuel c hfuel (by rw [hnat]; ring)
  · rw [advanceLodTimes_lodRangeFetchingBound]; rfl
  · rw [advanceLodTimes_lodRangeFetchingBound]; rfl
  · rw [advanceLodTimes_lodRangeFetchingBound]; rfl
  · exact fetchUntilRequired_lodRangeFetchingBound 3 sizes 3 3 0 le_rfl rfl

/-- Witness of C2 at `c = 0`, `r = 3`: the loop makes 3 invocations and stops
at LOD 3. -/
theorem advanceLod_reaches_required_witness :
    (0 : Int) ≤ 0 ∧ (0 : Int) ≤ 3 ∧
    fetchUntilRequired lodRangeFetchingBound 3 3 (0, ⟨0, 0, 0, 0⟩) = some (3, 3) :=
  ⟨by decide, by decide,
    (advanceLod_reaches_required 0 3 ⟨0, 0, 0, 0⟩ (by decide) (by decide)).2.2.2.2.2.2.2.2⟩

/-- C3: the configured policy is pure. Two invocations with the same
`(currentLod, requiredLod)` and the same incoming sizes leave the same returned
value and the same outgoing sizes, whatever invocations were made before
either of them; the closure has nothing to carry from one call to the next. -/
theorem invokeAfter_history_independent (history₁ history₂ : List PolicyCall)
    (call : PolicyCall) :
    invokeAfter history₁ call = invokeAfter history₂ call ∧
    (invokeAfter history₁ call).ret = (invokeAfter history₂ call).ret ∧
    (invokeAfter history₁ call).sizes = (invokeAfter history₂ call).sizes ∧
    invokeAfter history₁ call
      = lodRangeFetchingBound call.currentLod call.requiredLod call.sizes :=
  ⟨rfl, rfl, rfl, rfl⟩

/-- C4 as stated fails: entered with `lodRangeMinSize = 5` and
`lodRangeMaxSize = 3` (at `currentLod = 0`, `requiredLod = 3`), the policy
returns with `lodRangeMinSize > lodRangeMaxSize`. -/
theorem lodRangeFetchingBound_range_order_counterexample :
    ¬ ((lodRangeFetchingBound 0 3 ⟨5, 3, 0, 0⟩).sizes.lodRangeMinSize
        ≤ (lodRangeFetchingBound 0 3 ⟨5, 3, 0, 0⟩).sizes.lodRangeMaxSize) := by
  decide

/-- C4 amended: for every invocation of the configured policy entered with
`lodRangeMinSize <= lodRangeMaxSize`, with any `currentLod` and `requiredLod`
and any incoming request sizes, `lodRangeMinSize <= lodRangeMaxSize` holds on
return. -/
theorem lodRangeFetchingBound_range_order (currentLod requiredLod : Int)
    (sizes : RangeSizes) (h : sizes.lodRangeMinSize ≤ sizes.lodRangeMaxSize) :
    (lodRangeFetchingBound currentLod requiredLod sizes).sizes.lodRangeMinSize
      ≤ (lodRangeFetchingBound currentLod requiredLod sizes).sizes.lodRangeMaxSize :=
  h

/-- Witness of the amended C4 at `currentLod = 0`, `requiredLod = 3` and
incoming sizes `(3, 5, 0, 0)`. -/
theorem lodRangeFetchingBound_range_order_witness :
    (3 : Int) ≤ 5 ∧
    (lodRangeFetchingBound 0 3 ⟨3, 5, 0, 0⟩).sizes.lodRangeMinSize
      ≤ (lodRangeFetchingBound 0 3 ⟨3, 5, 0, 0⟩).sizes.lodRangeMaxSize :=
  ⟨by decide, lodRangeFetchingBound_range_order 0 3 ⟨3, 5, 0, 0⟩ (by decide)⟩

/-- C9: the configured policy writes none of its four by-reference size
parameters: on return each of them holds the value it held on entry. -/
theorem lodRangeFetchingBound_sizes_unchanged (currentLod requiredLod : Int)
    (sizes : RangeSizes) :
    (lodRangeFetchingBound currentLod requiredLod sizes).sizes = sizes ∧
    (lodRangeFetchingBound currentLod requiredLod sizes).sizes.lodRangeMinSize
      = sizes.lodRangeMinSize ∧
    (lodRangeFetchingBound currentLod requiredLod sizes).sizes.lodRangeMaxSize
      = sizes.lodRangeMaxSize ∧
    (lodRangeFetchingBound currentLod requiredLod sizes).sizes.lodRangeRequestMinSize
      = sizes.lodRangeRequestMinSize ∧
    (lodRangeFetchingBound currentLod requiredLod sizes).sizes.lodRangeRequestMaxSize
      = sizes.lodRangeRequestMaxSize :=
  ⟨rfl, rfl, rfl, rfl, rfl⟩

/-! ## Theorems: the configuration bundle -/

/-- C5: the bundle handed to `StreamingExtension::initialize` has error
tolerance threshold 0, blending enabled, blending period 1500
(`LOD_BLENDING_PERIOD`), the one-LOD-at-a-time lambda as range policy and 8
max active parsers, whatever the scheduler's options were before; each setter
leaves the four options that are not its own as they were, so no later setter
of the chain overwrites an earlier one. -/
theorem configureStreaming_bundle {K : Type} [LinearOrderedField K]
    (o : StreamingOptions K) :
    ((configureStreaming o).errorToleranceThreshold = 0 ∧
      (configureStreaming o).lodBlendingEnabled = true ∧
      (configureStreaming o).lodBlendingPeriod = 1500 ∧
      (configureStreaming o).lodBlendingPeriod = LOD_BLENDING_PERIOD ∧
      (configureStreaming o).rangeFetchingBoundFunction = lodRangeFetchingBound ∧
      (configureStreaming o).maxActiveParsers = 8) ∧
    (∀ v : K,
      (o.popGeometryErrorToleranceThreshold v).lodBlendingEnabled = o.lodBlendingEnabled ∧
      (o.popGeometryErrorToleranceThreshold v).lodBlendingPeriod = o.lodBlendingPeriod ∧
      (o.popGeometryErrorToleranceThreshold v).rangeFetchingBoundFunction
        = o.rangeFetchingBoundFunction ∧
      (o.popGeometryErrorToleranceThreshold v).maxActiveParsers = o.maxActiveParsers) ∧
    (∀ v : Bool,
      (o.popGeometryLodBlendingEnabled v).errorToleranceThreshold
        = o.errorToleranceThreshold ∧
      (o.popGeometryLodBlendingEnabled v).lodBlendingPeriod = o.lodBlendingPeriod ∧
      (o.popGeometryLodBlendingEnabled v).rangeFetchingBoundFunction
        = o.rangeFetchingBoundFunction ∧
      (o.popGeometryLodBlendingEnabled v).maxActiveParsers = o.maxActiveParsers) ∧
    (∀ v : K,
      (o.popGeometryLodBlendingPeriod v).errorToleranceThreshold
        = o.errorToleranceThreshold ∧
      (o.popGeometryLodBlendingPeriod v).lodBlendingEnabled = o.lodBlendingEnabled ∧
      (o.popGeometryLodBlendingPeriod v).rangeFetchingBoundFunction
        = o.rangeFetchingBoundFunction ∧
      (o.popGeometryLodBlendingPeriod v).maxActiveParsers = o.maxActiveParsers) ∧
    (∀ v : RangePolicy,
      (o.popGeometryLodRangeFetchingBoundFunction v).errorToleranceThreshold
        = o.errorToleranceThreshold ∧
      (o.popGeometryLodRangeFetchingBoundFunction v).lodBlendingEnabled
        = o.lodBlendingEnabled ∧
      (o.popGeometryLodRangeFetchingBoundFunction v).lodBlendingPeriod
        = o.lodBlendingPeriod ∧
      (o.popGeometryLodRangeFetchingBoundFunction v).maxActiveParsers
        = o.maxActiveParsers) ∧
    (∀ v : Int,
      (o.maxNumActiveParsers v).errorToleranceThreshold = o.errorToleranceThreshold ∧
      (o.maxNumActiveParsers v).lodBlendingEnabled = o.lodBlendingEnabled ∧
      (o.maxNumActiveParsers v).lodBlendingPeriod = o.lodBlendingPeriod ∧
      (o.maxNumActiveParsers v).rangeFetchingBoundFunction
        = o.rangeFetchingBoundFunction) :=
  ⟨⟨rfl, rfl, rfl, rfl, rfl, rfl⟩,
    fun _ => ⟨rfl, rfl, rfl, rfl⟩, fun _ => ⟨rfl, rfl, rfl, rfl⟩,
    fun _ => ⟨rfl, rfl, rfl, rfl⟩, fun _ => ⟨rfl, rfl, rfl, rfl⟩,
    fun _ => ⟨rfl, rfl, rfl, rfl⟩⟩

/-- No callback writes the streaming options. -/
theorem step_streamingOptions {K : Type} [LinearOrderedField K]
    (ext : Externals K) (s : Program K) (e : Event K) :
    (step ext s e).streamingOptions = s.streamingOptions := by
  cases e with
  | fxLoaderComplete => rfl
  | defaultLoaderComplete t => rfl
  | canvasResized w h => rfl
  | mouseWheel h v => rfl
  | mouseMove b dx dy => cases b <;> rfl
  | enterFrame time deltaTime shouldRender => rfl

/-- No sequence of callbacks writes the streaming options. -/
theorem run_streamingOptions {K : Type} [LinearOrderedField K]
    (ext : Externals K) (events : List (Event K)) :
    ∀ s : Program K, (run ext s events).streamingOptions = s.streamingOptions := by
  induction events with
  | nil => intro s; rfl
  | cons e es ih =>
    intro s
    have h : run ext s (e :: es) = run ext (step ext s e) es := rfl
    rw [h, ih, step_streamingOptions]

/-- C6: when `main` reaches `canvas->run()` the first `load()` on `fxLoader`
has been made; from then on no callback (loader complete, canvas resized,
mouse wheel, mouse move, enterFrame) writes the streaming configuration, and
after any sequence of callbacks the error tolerance threshold, blending flag,
blending period, range policy and max active parsers are those of the bundle
given at initialisation. -/
theorem run_keeps_configuration {K : Type} [LinearOrderedField K]
    (ext : Externals K) (schedulerOptions : StreamingOptions K)
    (events : List (Event K)) :
    (mainSetup ext schedulerOptions).fxLoadCalls = 1 ∧
    (mainSetup ext schedulerOptions).streamingOptions
      = configureStreaming schedulerOptions ∧
    (∀ (s : Program K) (e : Event K),
      (step ext s e).streamingOptions = s.streamingOptions) ∧
    (run ext (mainSetup ext schedulerOptions) events).streamingOptions
      = configureStreaming schedulerOptions ∧
    (run ext (mainSetup ext schedulerOptions) events).streamingOptions.errorToleranceThreshold
      = 0 ∧
    (run ext (mainSetup ext schedulerOptions) events).streamingOptions.lodBlendingEnabled
      = true ∧
    (run ext (mainSetup ext schedulerOptions) events).streamingOptions.lodBlendingPeriod
      = 1500 ∧
    (run ext (mainSetup ext schedulerOptions) events).streamingOptions.rangeFetchingBoundFunction
      = lodRangeFetchingBound ∧
    (run ext (mainSetup ext schedulerOptions) events).streamingOptions.maxActiveParsers
      = 8 := by
  have h := run_streamingOptions ext events (mainSetup ext schedulerOptions)
  refine ⟨rfl, rfl, step_streamingOptions ext, ?_, ?_, ?_, ?_, ?_, ?_⟩ <;> rw [h] <;> rfl

/-! ## Theorems: the parser pool -/

/-- A step of a parser pool keeps its capacity. -/
theorem ParserPool.step_capacity (p : ParserPool) (e : PoolEvent) :
    (p.step e).capacity = p.capacity := by
  cases e with
  | submit job =>
    simp only [ParserPool.step, ParserPool.submit]
    split <;> rfl
  | finish job =>
    simp only [ParserPool.step, ParserPool.finish]
    split
    · split <;> rfl
    · rfl

/-- A step of a parser pool keeps the number of jobs in flight within the
capacity. -/
theorem ParserPool.step_inFlight (p : ParserPool) (e : PoolEvent)
    (h : (p.inFlight.length : Int) ≤ p.capacity) :
    ((p.step e).inFlight.length : Int) ≤ (p.step e).capacity := by
  cases e with
  | submit job =>
    simp only [ParserPool.step, ParserPool.submit]
    split
    · next hlt =>
      simp only [List.length_append, List.length_singleton, Nat.cast_add, Nat.cast_one]
      omega
    · exact h
  | finish job =>
    simp only [ParserPool.step, ParserPool.finish]
    split
    · next hmem =>
      have hpos : 0 < p.inFlight.length := List.length_pos_of_mem hmem
      have hlen : (p.inFlight.erase job).length = p.inFlight.length - 1 :=
        List.length_erase_of_mem hmem
      split
      · simp only [hlen]
        omega
      · simp only [List.length_append, List.length_singleton, hlen]
        omega
    · exact h

/-- A run of a parser pool keeps its capacity and keeps the number of jobs in
flight within it. -/
theorem ParserPool.run_invariant (events : List PoolEvent) :
    ∀ p : ParserPool, (p.inFlight.length : Int) ≤ p.capacity →
      (p.run events).capacity = p.capacity ∧
      ((p.run events).inFlight.length : Int) ≤ p.capacity := by
  induction events with
  | nil => intro p h; exact ⟨rfl, h⟩
  | cons e es ih =>
    intro p h
    have hrun : p.run (e :: es) = (p.step e).run es := rfl
    have hstep := ParserPool.step_inFlight p e h
    have hcap := ParserPool.step_capacity p e
    obtain ⟨h1, h2⟩ := ih (p.step e) hstep
    rw [hrun]
    exact ⟨h1.trans hcap, hcap ▸ h2⟩

/-- C7: a parser pool created with capacity `capacity >= 1` (set through
`maxNumActiveParsers`) has at most `capacity` decode jobs in flight after any
sequence of submissions and job ends, hence at every instant of a run; with
the bundle of main.cpp, `maxNumActiveParsers(8)`, at most 8. -/
theorem parserPool_inFlight_le_capacity {K : Type} [LinearOrderedField K]
    (o : StreamingOptions K) (capacity : Int) (hcap : 1 ≤ capacity)
    (events : List PoolEvent) :
    ((((ParserPool.create (o.maxNumActiveParsers capacity)).run events).inFlight.length : Nat)
        : Int) ≤ capacity ∧
    ((ParserPool.create (configureStreaming o)).run events).inFlight.length ≤ 8 := by
  constructor
  · have h := ParserPool.run_invariant events
      (ParserPool.create (o.maxNumActiveParsers capacity))
      (by simp only [ParserPool.create, StreamingOptions.maxNumActiveParsers,
            List.length_nil, Nat.cast_zero]; omega)
    exact h.2
  · have h := ParserPool.run_invariant events (ParserPool.create (configureStreaming o))
      (by simp [ParserPool.create, configureStreaming,
            StreamingOptions.maxNumActiveParsers])
    have h2 : (ParserPool.create (configureStreaming o)).capacity = 8 := rfl
    have h3 := h.2
    rw [h2] at h3
    exact_mod_cast h3

/-- Witness of C7 at capacity 8: ten jobs are submitted and one ends. -/
theorem parserPool_inFlight_le_capacity_witness :
    (1 : Int) ≤ 8 ∧
    ((((ParserPool.create
        ((StreamingOptions.mk (0 : ℚ) false 0 lodRangeFetchingBound 0).maxNumActiveParsers 8)).run
          [.submit 0, .submit 1, .submit 2, .submit 3, .submit 4, .submit 5, .submit 6,
            .submit 7, .submit 8, .submit 9, .finish 3]).inFlight.length : Nat) : Int) ≤ 8 :=
  ⟨by decide,
    (parserPool_inFlight_le_capacity (StreamingOptions.mk (0 : ℚ) false 0 lodRangeFetchingBound 0)
      8 (by decide)
      [.submit 0, .submit 1, .submit 2, .submit 3, .submit 4, .submit 5, .submit 6,
        .submit 7, .submit 8, .submit 9, .finish 3]).1⟩

/-! ## Theorems: blend progress -/

/-- One tick with a non-negative delta time keeps the duration, keeps the
progress in [0,1] and does not lower it. -/
theorem BlendState.advance_bounds {K : Type} [LinearOrderedField K]
    (b : BlendState K) (deltaTime : K) (hd : 0 < b.duration)
    (h0 : 0 ≤ b.progress) (h1 : b.progress ≤ 1) (hdt : 0 ≤ deltaTime) :
    (b.advance deltaTime).duration = b.duration ∧
    0 ≤ (b.advance deltaTime).progress ∧
    (b.advance deltaTime).progress ≤ 1 ∧
    b.progress ≤ (b.advance deltaTime).progress := by
  have hq : 0 ≤ deltaTime / b.duration := div_nonneg hdt hd.le
  refine ⟨rfl, ?_, ?_, ?_⟩
  · exact le_min (add_nonneg h0 hq) zero_le_one
  · exact min_le_right _ _
  · exact le_min (le_add_of_nonneg_right hq) h1

/-- Any number of ticks with non-negative delta times keeps the duration and
keeps the progress in [0,1]. -/
theorem BlendState.advanceAll_bounds {K : Type} [LinearOrderedField K]
    (deltaTimes : List K) (hs : ∀ d ∈ deltaTimes, 0 ≤ d) :
    ∀ b : BlendState K, 0 < b.duration → 0 ≤ b.progress → b.progress ≤ 1 →
      (b.advanceAll deltaTimes).duration = b.duration ∧
      0 ≤ (b.advanceAll deltaTimes).progress ∧
      (b.advanceAll deltaTimes).progress ≤ 1 := by
  induction deltaTimes with
  | nil => intro b _ h0 h1; exact ⟨rfl, h0, h1⟩
  | cons d ds ih =>
    intro b hd h0 h1
    have hrun : b.advanceAll (d :: ds) = (b.advance d).advanceAll ds := rfl
    obtain ⟨e1, e2, e3, _⟩ :=
      BlendState.advance_bounds b d hd h0 h1 (hs d (List.mem_cons_self d ds))
    obtain ⟨f1, f2, f3⟩ := ih (fun x hx => hs x (List.mem_cons_of_mem d hx))
      (b.advance d) (e1 ▸ hd) e2 e3
    rw [hrun]
    exact ⟨f1.trans e1, f2, f3⟩

/-- C8: with the bundle of main.cpp (blending enabled, blending period 1500),
a transition starts at progress 0 and, after any ticks with `deltaTime >= 0`,
its progress is in [0,1]; a further tick with `deltaTime >= 0` sets it to
`min (progress + deltaTime / 1500) 1`, which is in [0,1] and not smaller than
the progress at the previous tick. -/
theorem blendProgress_bounded_monotone {K : Type} [LinearOrderedField K]
    (o : StreamingOptions K) (fromLod toLod : Int) (time : K)
    (deltaTimes : List K) (deltaTime : K)
    (hs : ∀ d ∈ deltaTimes, 0 ≤ d) (hdt : 0 ≤ deltaTime) :
    (BlendState.start (configureStreaming o) fromLod toLod time).progress = 0 ∧
    0 ≤ ((BlendState.start (configureStreaming o) fromLod toLod time).advanceAll
          deltaTimes).progress ∧
    ((BlendState.start (configureStreaming o) fromLod toLod time).advanceAll
          deltaTimes).progress ≤ 1 ∧
    (((BlendState.start (configureStreaming o) fromLod toLod time).advanceAll
          deltaTimes).advance deltaTime).progress
      = min (((BlendState.start (configureStreaming o) fromLod toLod time).advanceAll
          deltaTimes).progress + deltaTime / 1500) 1 ∧
    0 ≤ (((BlendState.start (configureStreaming o) fromLod toLod time).advanceAll
          deltaTimes).advance deltaTime).progress ∧
    (((BlendState.start (configureStreaming o) fromLod toLod time).advanceAll
          deltaTimes).advance deltaTime).progress ≤ 1 ∧
    ((BlendState.start (configureStreaming o) fromLod toLod time).advanceAll
          deltaTimes).progress
      ≤ (((BlendState.start (configureStreaming o) fromLod toLod time).advanceAll
          deltaTimes).advance deltaTime).progress := by
  have hdur : (BlendState.start (configureStreaming o) fromLod toLod time).duration
      = 1500 := rfl
  have hprog : (BlendState.start (configureStreaming o) fromLod toLod time).progress
      = 0 := rfl
  have hpos : (0 : K) < (BlendState.start (configureStreaming o) fromLod toLod time).duration := by
    rw [hdur]; norm_num
  obtain ⟨a1, a2, a3⟩ := BlendState.advanceAll_bounds deltaTimes hs
    (BlendState.start (configureStreaming o) fromLod toLod time) hpos
    (by rw [hprog]) (by rw [hprog]; exact zero_le_one)
  obtain ⟨_, b2, b3, b4⟩ := BlendState.advance_bounds
    ((BlendState.start (configureStreaming o) fromLod toLod time).advanceAll deltaTimes)
    deltaTime (a1 ▸ hpos) a2 a3 hdt
  refine ⟨hprog, a2, a3, ?_, b2, b3, b4⟩
  show min (_ + deltaTime / _) 1 = _
  rw [a1, hdur]

/-- Witness of C8 over the rationals: a transition ticked with delta times
500 and 250, then with 1000. -/
theorem blendProgress_bounded_monotone_witness :
    (∀ d ∈ [(500 : ℚ), 250], 0 ≤ d) ∧ (0 : ℚ) ≤ 1000 ∧
    ((BlendState.start (configureStreaming (StreamingOptions.mk (7 : ℚ) false 3
        lodRangeFetchingBound 2)) 0 1 0).advanceAll [500, 250]).progress
      ≤ (((BlendState.start (configureStreaming (StreamingOptions.mk (7 : ℚ) false 3
        lodRangeFetchingBound 2)) 0 1 0).advanceAll [500, 250]).advance 1000).progress :=
  ⟨by decide, by decide,
    (blendProgress_bounded_monotone (StreamingOptions.mk (7 : ℚ) false 3 lodRangeFetchingBound 2)
      0 1 0 [500, 250] 1000 (by decide) (by decide)).2.2.2.2.2.2⟩

/-! ## Theorems: the camera pitch -/

/-- The clamp of lines 196-199 lands in `[minPitch, maxPitch]` as soon as
`minPitch <= maxPitch`, and is decided by the three cases of the source. -/
theorem clampPitch_cases {K : Type} [LinearOrderedField K] (ext : Externals K)
    (pitch : K) (hle : minPitch ext ≤ maxPitch ext) :
    minPitch ext ≤ clampPitch ext pitch ∧ clampPitch ext pitch ≤ maxPitch ext ∧
    (maxPitch ext < pitch → clampPitch ext pitch = maxPitch ext) ∧
    (pitch < minPitch ext → clampPitch ext pitch = minPitch ext) ∧
    (minPitch ext ≤ pitch → pitch ≤ maxPitch ext → clampPitch ext pitch = pitch) := by
  unfold clampPitch
  refine ⟨?_, ?_, ?_, ?_, ?_⟩
  · split_ifs with h1 h2
    · exact hle
    · exact le_rfl
    · exact not_lt.mp h2
  · split_ifs with h1 h2
    · exact le_rfl
    · exact hle
    · exact not_lt.mp h1
  · intro h
    rw [if_pos h]
  · intro h
    have h1 : ¬ pitch > maxPitch ext := not_lt.mpr (le_trans h.le hle)
    rw [if_neg h1, if_pos h]
  · intro h1 h2
    rw [if_neg (not_lt.mpr h2), if_neg (not_lt.mpr h1)]

/-- C10: over the reals, with `half_pi = pi / 2`, `std::sin`, `std::cos` the
real sine and cosine and `0 < epsilon <= pi / 2 - epsilon`: after the camera
update of an enterFrame callback, from any prior pitch and any rotation speed,
the pitch lies in `[minPitch, maxPitch] = [epsilon, pi / 2 - epsilon]`; it is
`maxPitch` if the updated pitch exceeded `maxPitch`, `minPitch` if it was below
`minPitch`, and the updated pitch otherwise; so `sin pitch > 0`, and when
`distance != 0` the eye position handed to `lookAt` is off the vertical axis
through the look-at target. -/
theorem canvasEnterFrame_pitch_clamped (ext : Externals ℝ) (s : Program ℝ)
    (time deltaTime : ℝ) (shouldRender : Bool)
    (hHalfPi : ext.halfPi = Real.pi / 2)
    (hSin : ext.sin = Real.sin) (hCos : ext.cos = Real.cos)
    (hEps : 0 < ext.epsilon) (hEpsLe : ext.epsilon ≤ Real.pi / 2 - ext.epsilon) :
    (minPitch ext = ext.epsilon ∧ maxPitch ext = Real.pi / 2 - ext.epsilon) ∧
    (minPitch ext ≤ (canvasEnterFrame ext s time deltaTime shouldRender).pitch ∧
      (canvasEnterFrame ext s time deltaTime shouldRender).pitch ≤ maxPitch ext) ∧
    (maxPitch ext < s.pitch + s.cameraRotationXSpeed →
      (canvasEnterFrame ext s time deltaTime shouldRender).pitch = maxPitch ext) ∧
    (s.pitch + s.cameraRotationXSpeed < minPitch ext →
      (canvasEnterFrame ext s time deltaTime shouldRender).pitch = minPitch ext) ∧
    (minPitch ext ≤ s.pitch + s.cameraRotationXSpeed →
      s.pitch + s.cameraRotationXSpeed ≤ maxPitch ext →
      (canvasEnterFrame ext s time deltaTime shouldRender).pitch
        = s.pitch + s.cameraRotationXSpeed) ∧
    0 < Real.sin (canvasEnterFrame ext s time deltaTime shouldRender).pitch ∧
    (canvasEnterFrame ext s time deltaTime shouldRender).cameraEye
      = some (cameraPosition ext
          (canvasEnterFrame ext s time deltaTime shouldRender).yaw
          (canvasEnterFrame ext s time deltaTime shouldRender).pitch
          (canvasEnterFrame ext s time deltaTime shouldRender).distance) ∧
    (s.distance ≠ 0 →
      ¬ ((cameraPosition ext
            (canvasEnterFrame ext s time deltaTime shouldRender).yaw
            (canvasEnterFrame ext s time deltaTime shouldRender).pitch
            (canvasEnterFrame ext s time deltaTime shouldRender).distance).x
            = (lookAtTarget : Vec3 ℝ).x ∧
          (cameraPosition ext
            (canvasEnterFrame ext s time deltaTime shouldRender).yaw
            (canvasEnterFrame ext s time deltaTime shouldRender).pitch
            (canvasEnterFrame ext s time deltaTime shouldRender).distance).z
            = (lookAtTarget : Vec3 ℝ).z)) := by
  have hmin : minPitch ext = ext.epsilon := rfl
  have hmax : maxPitch ext = Real.pi / 2 - ext.epsilon := by
    simp only [maxPitch, hHalfPi]
  have hle : minPitch ext ≤ maxPitch ext := by rw [hmin, hmax]; exact hEpsLe
  have hpitch : (canvasEnterFrame ext s time deltaTime shouldRender).pitch
      = clampPitch ext (s.pitch + s.cameraRotationXSpeed) := rfl
  have hdist : (canvasEnterFrame ext s time deltaTime shouldRender).distance
      = s.distance := rfl
  obtain ⟨c1, c2, c3, c4, c5⟩ :=
    clampPitch_cases ext (s.pitch + s.cameraRotationXSpeed) hle
  have hsin : 0 < Real.sin (canvasEnterFrame ext s time deltaTime shouldRender).pitch := by
    rw [hpitch]
    apply Real.sin_pos_of_pos_of_lt_pi
    · rw [hmin] at c1
      linarith
    · rw [hmax] at c2
      linarith [Real.pi_pos]
  refine ⟨⟨hmin, hmax⟩, ⟨hpitch ▸ c1, hpitch ▸ c2⟩, ?_, ?_, ?_, hsin, rfl, ?_⟩
  · intro h; rw [hpitch]; exact c3 h
  · intro h; rw [hpitch]; exact c4 h
  · intro h1 h2; rw [hpitch]; exact c5 h1 h2
  · intro hd hax
    obtain ⟨hx, hz⟩ := hax
    simp only [cameraPosition, lookAtTarget, hSin, hCos, zero_add, hdist] at hx hz
    have hcos : Real.cos (canvasEnterFrame ext s time deltaTime shouldRender).yaw = 0 := by
      rcases mul_eq_zero.mp hx with h | h
      · rcases mul_eq_zero.mp h with h | h
        · exact absurd h hd
        · exact h
      · exact absurd h (ne_of_gt hsin)
    have hsn : Real.sin (canvasEnterFrame ext s time deltaTime shouldRender).yaw = 0 := by
      rcases mul_eq_zero.mp hz with h | h
      · rcases mul_eq_zero.mp h with h | h
        · exact absurd h hd
        · exact h
      · exact absurd h (ne_of_gt hsin)
    have h1 := Real.sin_sq_add_cos_sq (canvasEnterFrame ext s time deltaTime shouldRender).yaw
    rw [hcos, hsn] at h1
    norm_num at h1

/-- Witness of C10 over the reals with `epsilon = 2 ^ (-23)`: the first frame
after the set-up of `main`. -/
theorem canvasEnterFrame_pitch_clamped_witness :
    (0 : ℝ) < 1 / 2 ^ 23 ∧ (1 : ℝ) / 2 ^ 23 ≤ Real.pi / 2 - 1 / 2 ^ 23 ∧
    0 < Real.sin (canvasEnterFrame
      (Externals.mk Real.pi (Real.pi / 2) (1 / 2 ^ 23) Real.sin Real.cos 0 (4 / 3))
      (mainSetup
        (Externals.mk Real.pi (Real.pi / 2) (1 / 2 ^ 23) Real.sin Real.cos 0 (4 / 3))
        (StreamingOptions.mk 0 false 0 lodRangeFetchingBound 0))
      0 16 true).pitch :=
  have h0 : (0 : ℝ) < 1 / 2 ^ 23 := by norm_num
  have h1 : (1 : ℝ) / 2 ^ 23 ≤ Real.pi / 2 - 1 / 2 ^ 23 := by
    have h3 := Real.pi_gt_three
    have h2 : (1 : ℝ) / 2 ^ 23 ≤ 1 / 2 := by norm_num
    linarith
  ⟨h0, h1,
    (canvasEnterFrame_pitch_clamped
      (Externals.mk Real.pi (Real.pi / 2) (1 / 2 ^ 23) Real.sin Real.cos 0 (4 / 3))
      (mainSetup
        (Externals.mk Real.pi (Real.pi / 2) (1 / 2 ^ 23) Real.sin Real.cos 0 (4 / 3))
        (StreamingOptions.mk 0 false 0 lodRangeFetchingBound 0))
      0 16 true rfl rfl rfl h0 h1).2.2.2.2.2.1⟩

end PopLod
